import Mathlib

/-!
Verification of the hardware-diagnostics engine in `diagnostico_pc.py`
(class `DiagnosticoPCAvancado`).

Shallow embedding conventions:
* Python floats read from sensors (percentages, temperatures, byte counts)
  are modelled as rationals `ℚ`; the source only compares and adds them.
  The one-decimal string round-trip (`f"{x:.1f}%"` followed by
  `float(s.replace("%",""))` in `analyze_health_and_recommendations`) is
  modelled as the identity, i.e. readings are taken at one-decimal
  precision.
* Every call into a provider library (psutil, GPUtil, wmi, ...) is an
  input of the model: an `Except String α` value is `.ok` when the call
  returns and `.error msg` when it raises.  A `Bool` field models
  `available_libs.get(...)`.
* `self.alerts.append(...)` inside a query function is modelled by the
  function returning the list of alerts it appends, in order; callers
  extend the engine's alert list with that list.  The query functions
  never read the alert list, so this is an exact refactoring of the
  mutation.
* Purely descriptive dictionary entries (model names, cache sizes,
  serial numbers, ...) that no comparison ever reads are carried as
  opaque `List (String × String)` payloads taken from the environment.
* Alert and recommendation message strings interpolate the offending
  reading; the message is modelled as a tagged value (`AlertMsg`,
  `ProblemaMsg`) carrying that reading, the fixed surrounding text being
  determined by the tag.
-/

deriving instance DecidableEq for Except

namespace Diagnostico

/-- Character-list test used to model Python's `sub in s` on the
lower-cased sensor name (`'coretemp' in name.lower()`). -/
def prefixOfChars : List Char → List Char → Bool
  | [], _ => true
  | _ :: _, [] => false
  | a :: as, b :: bs => a == b && prefixOfChars as bs

/-- `subChars pat l` holds when `pat` occurs contiguously inside `l`. -/
def subChars (pat : List Char) : List Char → Bool
  | [] => prefixOfChars pat []
  | l@(_ :: rest) => prefixOfChars pat l || subChars pat rest

/-- `name.lower()` followed by Python's containment test `pat in ...`. -/
def containsLowered (name pat : String) : Bool :=
  subChars pat.data (name.data.map Char.toLower)

/-- `sum(l)` over the collected samples. -/
def listSum (l : List ℚ) : ℚ := l.foldl (· + ·) 0

/-- `max(l)` over a (guarded non-empty) sample list; `0` for `[]`. -/
def maxOf : List ℚ → ℚ
  | [] => 0
  | x :: xs => xs.foldl max x

/-- `sum(l)/len(l)`, the mean published in the monitoring summary. -/
def media (l : List ℚ) : ℚ := listSum l / l.length

/-- The `self.temp_limits` table from `__init__` (lines 118-126). -/
structure TempLimits where
  cpu_warning : ℚ
  cpu_critical : ℚ
  gpu_warning : ℚ
  gpu_critical : ℚ
  disk_warning : ℚ
  disk_critical : ℚ
deriving DecidableEq

/-- `self.temp_limits = {...}` with the exact constants of the source. -/
def temp_limits : TempLimits :=
  { cpu_warning := 75, cpu_critical := 85
    gpu_warning := 80, gpu_critical := 90
    disk_warning := 50, disk_critical := 60 }

/-- The `mensagem` entry of an alert dictionary: the tag identifies the
fixed Portuguese text, the payload is the interpolated reading (and the
device name for disk alerts). -/
inductive AlertMsg
  | tempCritica (t : ℚ)                       -- 'Temperatura crítica: ...'
  | tempAlta (t : ℚ)                          -- 'Temperatura alta: ...'
  | vramAlta (p : ℚ)                          -- 'Uso alto de memória VRAM: ...'
  | memCritica (p : ℚ)                        -- 'Uso crítico de memória: ...'
  | memAlta (p : ℚ)                           -- 'Uso alto de memória: ...'
  | swapAlta (p : ℚ)                          -- 'Uso alto de arquivo de troca: ...'
  | espacoCritico (dev : String) (p : ℚ)      -- 'Espaço crítico em ...'
  | espacoBaixo (dev : String) (p : ℚ)        -- 'Espaço baixo em ...'
deriving DecidableEq

/-- One entry of `self.alerts`: the dictionaries
`{'tipo': ..., 'componente': ..., 'mensagem': ..., 'prioridade': ...}`. -/
structure Alert where
  tipo : String
  componente : String
  mensagem : AlertMsg
  prioridade : String
deriving DecidableEq

/-- The `problema` entry of a recommendation dictionary, tagged like
`AlertMsg`. -/
inductive ProblemaMsg
  | usoAltoCPU (p : ℚ)
  | usoAltoGPU (p : ℚ)
  | usoAltoRAM (p : ℚ)
  | espacoCriticoDisco (dev : String) (p : ℚ)
  | espacoBaixoDisco (dev : String) (p : ℚ)
  | manutencaoPreventiva
  | segurancaSistema
deriving DecidableEq

/-- One entry of `self.recommendations`. -/
structure Recomendacao where
  categoria : String
  prioridade : String
  componente : String
  problema : ProblemaMsg
  recomendacao : String
deriving DecidableEq

/-- CPU temperature alert generation in `get_cpu_info` (lines 398-413):
strict comparisons against `cpu_critical` then `cpu_warning`. -/
def cpuTempAlerts (temp : ℚ) : List Alert :=
  if temp > temp_limits.cpu_critical then
    [{ tipo := "CRÍTICO", componente := "CPU",
       mensagem := .tempCritica temp, prioridade := "ALTA" }]
  else if temp > temp_limits.cpu_warning then
    [{ tipo := "AVISO", componente := "CPU",
       mensagem := .tempAlta temp, prioridade := "MÉDIA" }]
  else []

/-- GPU temperature alert generation in `get_gpu_info` (lines 444-457). -/
def gpuTempAlerts (temp : ℚ) : List Alert :=
  if temp > temp_limits.gpu_critical then
    [{ tipo := "CRÍTICO", componente := "GPU",
       mensagem := .tempCritica temp, prioridade := "ALTA" }]
  else if temp > temp_limits.gpu_warning then
    [{ tipo := "AVISO", componente := "GPU",
       mensagem := .tempAlta temp, prioridade := "MÉDIA" }]
  else []

/-- VRAM usage alert in `get_gpu_info` (lines 460-467). -/
def vramAlerts (p : ℚ) : List Alert :=
  if p > 90 then
    [{ tipo := "AVISO", componente := "GPU",
       mensagem := .vramAlta p, prioridade := "MÉDIA" }]
  else []

/-- RAM usage alerts in `get_memory_info` (lines 496-509). -/
def memAlerts (p : ℚ) : List Alert :=
  if p > 90 then
    [{ tipo := "CRÍTICO", componente := "RAM",
       mensagem := .memCritica p, prioridade := "ALTA" }]
  else if p > 80 then
    [{ tipo := "AVISO", componente := "RAM",
       mensagem := .memAlta p, prioridade := "MÉDIA" }]
  else []

/-- Swap usage alert in `get_memory_info` (lines 520-526). -/
def swapAlerts (p : ℚ) : List Alert :=
  if p > 50 then
    [{ tipo := "AVISO", componente := "SWAP",
       mensagem := .swapAlta p, prioridade := "BAIXA" }]
  else []

/-- Disk space alerts in `get_storage_info` (lines 577-591). -/
def diskSpaceAlerts (dev : String) (p : ℚ) : List Alert :=
  if p > 95 then
    [{ tipo := "CRÍTICO", componente := "DISCO",
       mensagem := .espacoCritico dev p, prioridade := "ALTA" }]
  else if p > 85 then
    [{ tipo := "AVISO", componente := "DISCO",
       mensagem := .espacoBaixo dev p, prioridade := "MÉDIA" }]
  else []

/-! ### Telemetry provider facade: CPU -/

/-- The sensor-name filter of the temperature loops (lines 393, 1173):
`'coretemp' in name.lower() or 'cpu' in name.lower()`. -/
def sensorNameMatches (name : String) : Bool :=
  containsLowered name "coretemp" || containsLowered name "cpu"

/-- The `for name, entries in sensors.items()` loops (lines 392-413 and
1172-1175): the first sensor whose name matches and whose entry list is
non-empty yields `entries[0].current`; a matching sensor with no entries
is passed over. -/
def firstCpuSensorTemp (sensors : List (String × List ℚ)) : Option ℚ :=
  match sensors.find? (fun p => sensorNameMatches p.1 && !p.2.isEmpty) with
  | some p => p.2.head?
  | none => none

/-- The `temperatura` entry of the CPU snapshot: a reading, or the
`"N/A (sensores não acessíveis)"` marker written by the inner `except`. -/
inductive TempVal
  | val (t : ℚ)
  | na
deriving DecidableEq

/-- Result of the first `cpu_info.update` block (lines 366-372):
`uso_atual` is `psutil.cpu_percent(interval=1)`; the core counts and
frequencies are descriptive payload. -/
structure CpuBasic where
  uso_atual : ℚ
  resto : List (String × String)
deriving DecidableEq

/-- Provider outcomes consumed by one call to `get_cpu_info`. -/
structure CpuEnv where
  psutil : Bool
  basic : Except String CpuBasic
  cpuinfoLib : Bool
  cpuinfoDados : Except String (List (String × String))
  sensors : Except String (List (String × List ℚ))
deriving DecidableEq

/-- The dictionary returned by `get_cpu_info`.  The initial
`{"erro": "Informações não disponíveis"}` entry is never deleted by the
source, so `erro` is always present. -/
structure CpuInfo where
  erro : String := "Informações não disponíveis"
  uso_atual : Option ℚ := none
  detalhes : List (String × String) := []
  cpuinfoCampos : List (String × String) := []
  temperatura : Option TempVal := none
deriving DecidableEq

/-- `get_cpu_info` (lines 359-420).  The outer `try` covers the psutil
and cpuinfo update blocks; an exception there overwrites `erro` and
returns at once (the temperature block never runs).  The inner `try`
(lines 388-415) turns a sensor exception into the `N/A` marker.  An
empty sensor dictionary, or one with no matching entry, leaves
`temperatura` absent.  Appended alerts are returned in the second
component. -/
def get_cpu_info (env : CpuEnv) : CpuInfo × List Alert :=
  let s0 : CpuInfo := {}
  match (if env.psutil then env.basic.map some else .ok none) with
  | .error e => ({ s0 with erro := "Erro ao obter informações do CPU: " ++ e }, [])
  | .ok b =>
    let s1 : CpuInfo :=
      match b with
      | some basic => { s0 with uso_atual := some basic.uso_atual, detalhes := basic.resto }
      | none => s0
    match (if env.cpuinfoLib then env.cpuinfoDados.map some else .ok none) with
    | .error e => ({ s1 with erro := "Erro ao obter informações do CPU: " ++ e }, [])
    | .ok info =>
      let s2 : CpuInfo :=
        match info with
        | some campos => { s1 with cpuinfoCampos := campos }
        | none => s1
      if env.psutil then
        match env.sensors with
        | .error _ => ({ s2 with temperatura := some .na }, [])
        | .ok sensores =>
          if sensores.isEmpty then (s2, [])
          else
            match firstCpuSensorTemp sensores with
            | none => (s2, [])
            | some t => ({ s2 with temperatura := some (.val t) }, cpuTempAlerts t)
      else (s2, [])

/-! ### Telemetry provider facade: GPU -/

/-- One `GPUtil` GPU object (the fields the source reads). -/
structure GPUDev where
  name : String
  memoryTotal : ℚ
  memoryUsed : ℚ
  memoryFree : ℚ
  load : ℚ
  temperature : ℚ
deriving DecidableEq

/-- Provider outcomes consumed by one call to `get_gpu_info`. -/
structure GpuEnv where
  gputil : Bool
  getGPUs : Except String (List GPUDev)
deriving DecidableEq

/-- The dictionary returned by `get_gpu_info`.  On the success path the
initial error dictionary is wholly replaced, so `erro` is `none` there. -/
structure GpuInfo where
  erro : Option String := none
  modelo : Option String := none
  uso_gpu : Option ℚ := none
  uso_memoria : Option ℚ := none
  temperatura : Option ℚ := none
deriving DecidableEq

/-- `get_gpu_info` (lines 422-476).  `gpus[0]` is the first GPU; a zero
`memoryTotal` makes the `uso_memoria` division raise
`ZeroDivisionError`, which the outer `except` converts to the error
dictionary before any alert is appended. -/
def get_gpu_info (env : GpuEnv) : GpuInfo × List Alert :=
  if !env.gputil then
    ({ erro := some "GPUtil não disponível - instale com: pip install GPUtil" }, [])
  else
    match env.getGPUs with
    | .error e => ({ erro := some ("Erro ao obter informações da GPU: " ++ e) }, [])
    | .ok [] => ({ erro := some "Nenhuma GPU NVIDIA/AMD detectada" }, [])
    | .ok (gpu :: _) =>
      if gpu.memoryTotal = 0 then
        ({ erro := some "Erro ao obter informações da GPU: float division by zero" }, [])
      else
        let p := gpu.memoryUsed / gpu.memoryTotal * 100
        ({ modelo := some gpu.name, uso_gpu := some (gpu.load * 100),
           uso_memoria := some p, temperatura := some gpu.temperature },
         gpuTempAlerts gpu.temperature ++ vramAlerts p)

/-! ### Telemetry provider facade: memory -/

/-- `psutil.virtual_memory()` fields the source reads. -/
structure VirtMem where
  total : ℚ
  available : ℚ
  used : ℚ
  percent : ℚ
  free : ℚ
deriving DecidableEq

/-- `psutil.swap_memory()` fields the source reads. -/
structure SwapMem where
  total : ℚ
  used : ℚ
  percent : ℚ
deriving DecidableEq

/-- Provider outcomes consumed by one call to `get_memory_info`.  The
WMI module block (lines 529-548) sits inside its own `try/except: pass`
and is reduced to an optional payload. -/
structure MemEnv where
  psutil : Bool
  virtual_memory : Except String VirtMem
  swap_memory : Except String SwapMem
  wmi_modules : Option (List (List (String × String)))
deriving DecidableEq

/-- The dictionary returned by `get_memory_info`. -/
structure MemInfo where
  erro : Option String := none
  porcentagem_uso : Option ℚ := none
  campos : List (String × String) := []
  swap_porcentagem : Option ℚ := none
  modulos : Option (List (List (String × String))) := none
deriving DecidableEq

/-- Descriptive total/available/used/free entries of the memory dict. -/
def memCampos (m : VirtMem) : List (String × String) :=
  [("total", toString m.total), ("disponivel", toString m.available),
   ("usada", toString m.used), ("livre", toString m.free)]

/-- `get_memory_info` (lines 478-553).  RAM alerts are appended right
after the main dictionary is built, so they survive a later
`swap_memory()` exception; that exception is caught by the outer
`except`, which adds the `erro` key to the already-populated
dictionary. -/
def get_memory_info (env : MemEnv) : MemInfo × List Alert :=
  if !env.psutil then ({ erro := some "Informações não disponíveis" }, [])
  else
    match env.virtual_memory with
    | .error e => ({ erro := some ("Erro ao obter informações da memória: " ++ e) }, [])
    | .ok mem =>
      let info : MemInfo := { porcentagem_uso := some mem.percent, campos := memCampos mem }
      let alerts := memAlerts mem.percent
      match env.swap_memory with
      | .error e =>
        ({ info with erro := some ("Erro ao obter informações da memória: " ++ e) }, alerts)
      | .ok swap =>
        if swap.total > 0 then
          ({ info with swap_porcentagem := some swap.percent, modulos := env.wmi_modules },
           alerts ++ swapAlerts swap.percent)
        else
          ({ info with modulos := env.wmi_modules }, alerts)

/-! ### Telemetry provider facade: storage -/

/-- `psutil.disk_usage(mountpoint)` fields the source reads. -/
structure DiskUsage where
  total : ℚ
  used : ℚ
  free : ℚ
deriving DecidableEq

/-- One partition together with the outcome of its `disk_usage` call:
a successful usage reading, a `PermissionError` (skipped via
`continue`), or another exception (propagating to the outer `except`). -/
inductive PartitionRead
  | ok (device mountpoint fstype : String) (usage : DiskUsage)
  | permissionError (device : String)
  | otherError (msg : String)
deriving DecidableEq

/-- Provider outcomes consumed by one call to `get_storage_info`.  The
disk-I/O and WMI S.M.A.R.T. blocks sit inside their own
`try/except: pass` and are reduced to optional payloads. -/
structure StoEnv where
  psutil : Bool
  partitions : Except String (List PartitionRead)
  disk_io : Option (List (String × String))
  wmi_smart : Option (List (String × String))
deriving DecidableEq

/-- One entry of the `dispositivos` list. -/
structure DeviceInfo where
  dispositivo : String
  porcentagem_uso : ℚ
  campos : List (String × String) := []
  smart : Option (List (String × String)) := none
deriving DecidableEq

/-- The dictionary returned by `get_storage_info`; `erro` starts as
`None`. -/
structure StoInfo where
  dispositivos : List DeviceInfo := []
  erro : Option String := none
  estatisticas_io : Option (List (String × String)) := none
deriving DecidableEq

/-- Descriptive mountpoint/filesystem/size entries of a device dict. -/
def stoCampos (mp fs : String) (u : DiskUsage) : List (String × String) :=
  [("ponto_montagem", mp), ("sistema_arquivos", fs),
   ("tamanho_total", toString u.total), ("usado", toString u.used),
   ("livre", toString u.free)]

/-- The partition loop of `get_storage_info` (lines 562-595): devices
and alerts accumulate in order; `PermissionError` skips a partition;
any other exception (including the `usage.used / usage.total` division
by zero) aborts the loop, keeping what was accumulated, and carries the
message to the outer `except`. -/
def stoLoop : List PartitionRead → List DeviceInfo → List Alert →
    List DeviceInfo × List Alert × Option String
  | [], devs, al => (devs, al, none)
  | .permissionError _ :: rest, devs, al => stoLoop rest devs al
  | .otherError e :: _, devs, al => (devs, al, some e)
  | .ok dev mp fs u :: rest, devs, al =>
    if u.total = 0 then (devs, al, some "float division by zero")
    else
      let p := u.used / u.total * 100
      stoLoop rest (devs ++ [{ dispositivo := dev, porcentagem_uso := p,
                               campos := stoCampos mp fs u }])
        (al ++ diskSpaceAlerts dev p)

/-- `s[0]["smart"] = info` on the first device (lines 626-627). -/
def setSmartOnFirst (info : List (String × String)) :
    List DeviceInfo → List DeviceInfo
  | [] => []
  | d :: ds => { d with smart := some info } :: ds

/-- `get_storage_info` (lines 555-635). -/
def get_storage_info (env : StoEnv) : StoInfo × List Alert :=
  if !env.psutil then ({}, [])
  else
    match env.partitions with
    | .error e =>
      ({ erro := some ("Erro ao obter informações de armazenamento: " ++ e) }, [])
    | .ok parts =>
      match stoLoop parts [] [] with
      | (devs, al, some e) =>
        ({ dispositivos := devs,
           erro := some ("Erro ao obter informações de armazenamento: " ++ e) }, al)
      | (devs, al, none) =>
        let devs :=
          match env.wmi_smart with
          | some info => if devs.isEmpty then devs else setSmartOnFirst info devs
          | none => devs
        ({ dispositivos := devs, estatisticas_io := env.disk_io }, al)

/-! ### Telemetry provider facade: motherboard, system, network -/

/-- Provider outcomes for `get_motherboard_info`: WMI availability on
Windows, and the combined board/BIOS/processor enumeration. -/
structure MbEnv where
  wmi_windows : Bool
  dados : Except String (List (String × String))
deriving DecidableEq

/-- The dictionary returned by `get_motherboard_info`. -/
structure MbInfo where
  erro : Option String := none
  campos : List (String × String) := []
deriving DecidableEq

/-- `get_motherboard_info` (lines 637-677). -/
def get_motherboard_info (env : MbEnv) : MbInfo :=
  if !env.wmi_windows then
    { erro := some "WMI não disponível - informações limitadas no seu sistema" }
  else
    match env.dados with
    | .error e => { erro := some ("Erro ao obter informações da placa-mãe: " ++ e) }
    | .ok campos => { campos := campos }

/-- Provider outcomes for `get_system_info`: the `platform` block and
the optional psutil block (boot time, uptime, users). -/
structure SysEnv where
  base : Except String (List (String × String))
  psutil : Bool
  psDados : Except String (List (String × String))
deriving DecidableEq

/-- The dictionary returned by `get_system_info` (starts empty, so an
early exception yields only the `erro` key). -/
structure SysInfo where
  erro : Option String := none
  campos : List (String × String) := []
deriving DecidableEq

/-- `get_system_info` (lines 679-706).  The psutil `update` dictionary
is built atomically, so an exception there keeps the platform fields. -/
def get_system_info (env : SysEnv) : SysInfo :=
  match env.base with
  | .error e => { erro := some ("Erro ao obter informações do sistema: " ++ e) }
  | .ok base =>
    if env.psutil then
      match env.psDados with
      | .error e =>
        { erro := some ("Erro ao obter informações do sistema: " ++ e), campos := base }
      | .ok ps => { campos := base ++ ps }
    else { campos := base }

/-- Provider outcomes for `get_network_info`: the whole interface and
counter enumeration, abstracted to one payload. -/
structure NetEnv where
  psutil : Bool
  dados : Except String (List (String × String))
deriving DecidableEq

/-- The dictionary returned by `get_network_info`; `erro` starts as
`None`. -/
structure NetInfo where
  erro : Option String := none
  campos : List (String × String) := []
deriving DecidableEq

/-- `get_network_info` (lines 708-757). -/
def get_network_info (env : NetEnv) : NetInfo :=
  if !env.psutil then {}
  else
    match env.dados with
    | .error e => { erro := some ("Erro ao obter informações de rede: " ++ e) }
    | .ok campos => { campos := campos }

/-! ### Monitoring time-series buffer -/

/-- `self.monitoring_data`: the six parallel sample lists (timestamps
modelled as rationals). -/
structure MonData where
  cpu_usage : List ℚ := []
  gpu_usage : List ℚ := []
  memory_usage : List ℚ := []
  cpu_temp : List ℚ := []
  gpu_temp : List ℚ := []
  timestamps : List ℚ := []
deriving DecidableEq

/-! ### Engine state and the one-shot full diagnostic -/

/-- The mutable engine state of `DiagnosticoPCAvancado` that the claims
talk about: `self.alerts`, `self.recommendations`,
`self.monitoring_data`. -/
structure EngineState where
  alerts : List Alert := []
  recommendations : List Recomendacao := []
  monitoring_data : MonData := {}
deriving DecidableEq

/-- All provider outcomes consumed by one full diagnostic run.  A fixed
machine presents the same outcomes to both query rounds of a run. -/
structure DiagEnv where
  cpu : CpuEnv
  gpu : GpuEnv
  mem : MemEnv
  storage : StoEnv
  mb : MbEnv
  sys : SysEnv
  net : NetEnv
deriving DecidableEq

/-- Storage recommendations per device in
`analyze_health_and_recommendations` (lines 804-823): note the 90/80
cut-offs differ from the 95/85 alert cut-offs. -/
def deviceRecs (d : DeviceInfo) : List Recomendacao :=
  if d.porcentagem_uso > 90 then
    [{ categoria := "Armazenamento", prioridade := "CRÍTICA", componente := "DISCO",
       problema := .espacoCriticoDisco d.dispositivo d.porcentagem_uso,
       recomendacao := "Libere espaço urgentemente, mova arquivos para disco externo, execute limpeza de disco" }]
  else if d.porcentagem_uso > 80 then
    [{ categoria := "Armazenamento", prioridade := "MÉDIA", componente := "DISCO",
       problema := .espacoBaixoDisco d.dispositivo d.porcentagem_uso,
       recomendacao := "Execute limpeza de arquivos temporários, desinstale programas não utilizados" }]
  else []

/-- The static preventive-maintenance recommendation (lines 826-832). -/
def manutencaoRec : Recomendacao :=
  { categoria := "Manutenção", prioridade := "BAIXA", componente := "GERAL",
    problema := .manutencaoPreventiva,
    recomendacao := "Execute limpeza física do PC a cada 6 meses, atualize drivers regularmente, faça backup dos dados importantes" }

/-- The static security recommendation (lines 835-841). -/
def segurancaRec : Recomendacao :=
  { categoria := "Segurança", prioridade := "MÉDIA", componente := "SISTEMA",
    problema := .segurancaSistema,
    recomendacao := "Mantenha o sistema operacional atualizado, use antivírus atualizado, ative o firewall do Windows" }

/-- `analyze_health_and_recommendations` (lines 759-850).  It clears
`self.recommendations`, then queries CPU, GPU, memory and storage
afresh — each query appending its own alerts again — and derives
recommendations from the returned dictionaries (CPU usage > 80,
GPU usage > 90, memory usage > 85, per-device 90/80), closing with the
two static entries.  Returns the rebuilt recommendation list and the
alerts appended by its queries. -/
def analyze_health_and_recommendations (env : DiagEnv) :
    List Recomendacao × List Alert :=
  let (cpuI, aCpu) := get_cpu_info env.cpu
  let rCpu :=
    match cpuI.uso_atual with
    | some u =>
      if u > 80 then
        [{ categoria := "Performance", prioridade := "ALTA", componente := "CPU",
           problema := .usoAltoCPU u,
           recomendacao := "Feche programas desnecessários, verifique processos em segundo plano, considere upgrade do processador" }]
      else []
    | none => []
  let (gpuI, aGpu) := get_gpu_info env.gpu
  let rGpu :=
    match gpuI.uso_gpu with
    | some g =>
      if g > 90 then
        [{ categoria := "Performance", prioridade := "MÉDIA", componente := "GPU",
           problema := .usoAltoGPU g,
           recomendacao := "Reduza configurações gráficas em jogos/aplicações, verifique drivers atualizados" }]
      else []
    | none => []
  let (memI, aMem) := get_memory_info env.mem
  let rMem :=
    match memI.porcentagem_uso with
    | some m =>
      if m > 85 then
        [{ categoria := "Hardware", prioridade := "ALTA", componente := "RAM",
           problema := .usoAltoRAM m,
           recomendacao := "Considere adicionar mais RAM, feche aplicações não utilizadas, verifique vazamentos de memória" }]
      else []
    | none => []
  let (stoI, aSto) := get_storage_info env.storage
  let rSto := stoI.dispositivos.flatMap deviceRecs
  (rCpu ++ rGpu ++ rMem ++ rSto ++ [manutencaoRec, segurancaRec],
   aCpu ++ aGpu ++ aMem ++ aSto)

/-- The state effect of one full diagnostic run (`run_complete_diagnosis`,
lines 852-1030, successful path of `diagnosis_thread`): clear both
lists, query every subsystem once for the report — CPU, GPU, memory and
storage appending alerts — then run
`analyze_health_and_recommendations`, whose fresh queries append their
alerts a second time.  The motherboard, system and network queries
append nothing.  The monitoring buffer is untouched. -/
def run_complete_diagnosis (env : DiagEnv) (s : EngineState) : EngineState :=
  let a1 := (get_cpu_info env.cpu).2
  let a2 := (get_gpu_info env.gpu).2
  let a3 := (get_memory_info env.mem).2
  let a4 := (get_storage_info env.storage).2
  let ra := analyze_health_and_recommendations env
  { s with alerts := a1 ++ a2 ++ a3 ++ a4 ++ ra.2, recommendations := ra.1 }

/-- `get_cpu_info` seen as an action on the engine state: the snapshot
is returned and the appended alerts extend `self.alerts`. -/
def get_cpu_infoS (env : CpuEnv) (s : EngineState) : CpuInfo × EngineState :=
  let r := get_cpu_info env
  (r.1, { s with alerts := s.alerts ++ r.2 })

/-- `get_gpu_info` as an action on the engine state. -/
def get_gpu_infoS (env : GpuEnv) (s : EngineState) : GpuInfo × EngineState :=
  let r := get_gpu_info env
  (r.1, { s with alerts := s.alerts ++ r.2 })

/-- `get_memory_info` as an action on the engine state. -/
def get_memory_infoS (env : MemEnv) (s : EngineState) : MemInfo × EngineState :=
  let r := get_memory_info env
  (r.1, { s with alerts := s.alerts ++ r.2 })

/-- `get_storage_info` as an action on the engine state. -/
def get_storage_infoS (env : StoEnv) (s : EngineState) : StoInfo × EngineState :=
  let r := get_storage_info env
  (r.1, { s with alerts := s.alerts ++ r.2 })

/-! ### The monitoring tick -/

/-- `get_cpu_temperature` (lines 1166-1178): any exception yields
`None`; an empty or non-matching sensor table yields `None`; otherwise
the first matching sensor's first reading. -/
def get_cpu_temperature (psutil : Bool)
    (sensors : Except String (List (String × List ℚ))) : Option ℚ :=
  if psutil then
    match sensors with
    | .error _ => none
    | .ok ss => firstCpuSensorTemp ss
  else none

/-- Provider outcomes consumed by one monitoring tick. -/
structure TickEnv where
  now : ℚ
  psutil : Bool
  cpu_percent : Except String ℚ
  sensors : Except String (List (String × List ℚ))
  mem_percent : Except String ℚ
  gputil : Bool
  gpus : Except String (List (ℚ × ℚ))
deriving DecidableEq

/-- The GPU part of a tick (lines 1126-1134): its own
`try/except: pass`, appending load·100 and temperature of the first GPU
when one is found. -/
def gpuTickPart (d : MonData) (e : TickEnv) : MonData :=
  if e.gputil then
    match e.gpus with
    | .error _ => d
    | .ok [] => d
    | .ok ((load, temp) :: _) =>
      { d with gpu_usage := d.gpu_usage ++ [load * 100],
               gpu_temp := d.gpu_temp ++ [temp] }
  else d

/-- One iteration body of `monitoring_thread` (lines 1107-1156)
restricted to its effect on `self.monitoring_data`.  The timestamp is
appended first; an exception from `cpu_percent` or `virtual_memory`
jumps to the per-tick `except`, skipping the rest of the body, so the
other lists receive nothing for that tick.  A CPU temperature of `None`
— and, through Python truthiness, a reading of exactly `0.0` — is
skipped entirely (`if cpu_temp:`), not recorded as a missing entry.
The display update and the high-usage log events (lines 1136-1148) do
not touch the buffer and are omitted. -/
def tick (d : MonData) (e : TickEnv) : MonData :=
  let d := { d with timestamps := d.timestamps ++ [e.now] }
  if e.psutil then
    match e.cpu_percent with
    | .error _ => d
    | .ok cp =>
      let d := { d with cpu_usage := d.cpu_usage ++ [cp] }
      let d :=
        match get_cpu_temperature e.psutil e.sensors with
        | some t => if t = 0 then d else { d with cpu_temp := d.cpu_temp ++ [t] }
        | none => d
      match e.mem_percent with
      | .error _ => d
      | .ok mp => gpuTickPart { d with memory_usage := d.memory_usage ++ [mp] } e
  else gpuTickPart d e

/-- N consecutive completed ticks. -/
def runTicks (envs : List TickEnv) (d : MonData) : MonData :=
  envs.foldl tick d

/-- Whether a tick records a CPU-temperature sample (the reading exists,
the CPU read before it succeeded, and Python truthiness keeps it). -/
def tempRecorded (e : TickEnv) : Bool :=
  e.psutil &&
    (match e.cpu_percent with | .ok _ => true | .error _ => false) &&
    (match get_cpu_temperature e.psutil e.sensors with
     | some t => !(t = 0 : Bool)
     | none => false)

/-! ### Session lifecycle -/

/-- One line of the summary published when a session ends
(`finish_monitoring`) or of the monitoring section of the complete
report (`generate_complete_report`, lines 1566-1583 — the only place a
GPU line is produced). -/
inductive StatLine
  | cabecalho (amostras : ℕ)
  | cpuStat (media maxv : ℚ)
  | ramStat (media maxv : ℚ)
  | gpuStat (media maxv : ℚ)
deriving DecidableEq

/-- Result of `finish_monitoring`: the cleared flag, the published
summary lines, and the buffer as left behind. -/
structure FinishResult where
  monitoring : Bool
  linhas : List StatLine
  dados : MonData
deriving DecidableEq

/-- `finish_monitoring` (lines 1215-1236): sets `self.monitoring` to
`False`, publishes the sample count and the mean/max of CPU% and RAM%
over the full buffer (each guarded by non-emptiness), and does not
clear `self.monitoring_data` — the next `start_monitoring` does. -/
def finish_monitoring (d : MonData) : FinishResult :=
  { monitoring := false
    linhas :=
      [.cabecalho d.timestamps.length]
        ++ (if d.cpu_usage.isEmpty then []
            else [.cpuStat (media d.cpu_usage) (maxOf d.cpu_usage)])
        ++ (if d.memory_usage.isEmpty then []
            else [.ramStat (media d.memory_usage) (maxOf d.memory_usage)])
    dados := d }

/-- The monitoring section of `generate_complete_report`
(lines 1566-1583), which does publish GPU mean/max when GPU samples
exist. -/
def report_monitoring_stats (d : MonData) : List StatLine :=
  if d.timestamps.isEmpty then []
  else
    [.cabecalho d.timestamps.length]
      ++ (if d.cpu_usage.isEmpty then []
          else [.cpuStat (media d.cpu_usage) (maxOf d.cpu_usage)])
      ++ (if d.memory_usage.isEmpty then []
          else [.ramStat (media d.memory_usage) (maxOf d.memory_usage)])
      ++ (if d.gpu_usage.isEmpty then []
          else [.gpuStat (media d.gpu_usage) (maxOf d.gpu_usage)])

/-- The loop-relevant state of a Running session: the `self.monitoring`
flag, the current and end times of the `while` condition, and the
buffer. -/
structure LoopState where
  monitoring : Bool
  tempoAtual : ℚ
  end_time : ℚ
  dados : MonData
deriving DecidableEq

/-- `stop_monitoring` (lines 1211-1213): only sets the flag to
`False`. -/
def stop_monitoring (s : LoopState) : LoopState := { s with monitoring := false }

/-- The `while self.monitoring and time.time() < end_time:` loop of
`monitoring_thread` (line 1106), driven by a schedule: before each
re-check of the condition the outside world may have called
`stop_monitoring` (first component), then the condition is evaluated
and, only when it holds, the next tick runs with that entry's provider
outcomes and the clock advances to the tick's time. -/
def loopRun : List (Bool × TickEnv) → LoopState → LoopState
  | [], s => s
  | (stopReq, e) :: rest, s =>
    let s := if stopReq then stop_monitoring s else s
    if s.monitoring ∧ s.tempoAtual < s.end_time then
      loopRun rest { s with dados := tick s.dados e, tempoAtual := e.now }
    else s

/-! ### Concrete machines used as test inputs -/

/-- A quiet CPU: psutil present, 10% usage, one `coretemp` sensor at
60°C, py-cpuinfo absent. -/
def cpuEnvQuieto : CpuEnv :=
  { psutil := true, basic := .ok { uso_atual := 10, resto := [] },
    cpuinfoLib := false, cpuinfoDados := .ok [],
    sensors := .ok [("coretemp", [60])] }

/-- The quiet CPU with its sensor reading replaced by `t`. -/
def cpuEnvSensor (t : ℚ) : CpuEnv :=
  { cpuEnvQuieto with sensors := .ok [("coretemp", [t])] }

/-- A quiet machine: every subsystem answers, nothing crosses a
threshold (no GPU, memory at 50%, no swap, no partitions). -/
def envBase : DiagEnv :=
  { cpu := cpuEnvQuieto
    gpu := { gputil := false, getGPUs := .ok [] }
    mem := { psutil := true
             virtual_memory := .ok { total := 16, available := 8, used := 8, percent := 50, free := 8 }
             swap_memory := .ok { total := 0, used := 0, percent := 0 }
             wmi_modules := none }
    storage := { psutil := true, partitions := .ok [], disk_io := none, wmi_smart := none }
    mb := { wmi_windows := false, dados := .ok [] }
    sys := { base := .ok [], psutil := false, psDados := .ok [] }
    net := { psutil := false, dados := .ok [] } }

/-- The quiet machine with the CPU temperature sensor reading `t`. -/
def envComTempCPU (t : ℚ) : DiagEnv :=
  { envBase with cpu := cpuEnvSensor t }

/-- The quiet machine with memory usage at `p`%. -/
def envComMemoria (p : ℚ) : DiagEnv :=
  { envBase with
    mem := { envBase.mem with
             virtual_memory := .ok { total := 16, available := 8, used := 8, percent := p, free := 8 } } }

/-- Number of alerts with the given severity and component. -/
def contaAlertas (tipo componente : String) (al : List Alert) : ℕ :=
  (al.filter (fun a => a.tipo == tipo && a.componente == componente)).length

/-- Is this recommendation the memory ("add more RAM") one? -/
def ehRecRAM (r : Recomendacao) : Bool :=
  match r.problema with
  | .usoAltoRAM _ => true
  | _ => false

/-- A tick in which everything answers but no CPU-temperature sensor is
found (CPU 10%, memory 40%, no GPU), at time 0. -/
def tickSemTemp : TickEnv :=
  { now := 0, psutil := true, cpu_percent := .ok 10, sensors := .ok [],
    mem_percent := .ok 40, gputil := false, gpus := .ok [] }

/-- The same tick at time 2 with a 50°C CPU-temperature reading. -/
def tickComTemp : TickEnv :=
  { tickSemTemp with now := 2, sensors := .ok [("coretemp", [50])] }

/-- A one-tick session buffer that includes GPU samples. -/
def dadosComGPU : MonData :=
  { cpu_usage := [10], gpu_usage := [30], memory_usage := [40],
    cpu_temp := [], gpu_temp := [55], timestamps := [0] }

/-- Strict ascending order of a timestamp list. -/
def strictlyIncreasing : List ℚ → Bool
  | [] => true
  | [_] => true
  | a :: b :: rest => a < b && strictlyIncreasing (b :: rest)

/-- Is this published line a GPU statistic? -/
def ehGpuStat : StatLine → Bool
  | .gpuStat _ _ => true
  | _ => false

/-- A disk-temperature alert: a temperature message attributed to the
`DISCO` component.  No constructor of the engine ever builds one. -/
def alertaTempDisco (a : Alert) : Bool :=
  (match a.mensagem with
   | .tempCritica _ => true
   | .tempAlta _ => true
   | _ => false) && a.componente == "DISCO"

/-- A CPU environment whose psutil block raises. -/
def cpuEnvFalha : CpuEnv :=
  { psutil := true, basic := .error "boom", cpuinfoLib := false,
    cpuinfoDados := .ok [], sensors := .ok [] }

/-- A CPU environment whose `sensors_temperatures()` call raises. -/
def cpuEnvSensorFalha : CpuEnv :=
  { psutil := true, basic := .ok { uso_atual := 10, resto := [] },
    cpuinfoLib := false, cpuinfoDados := .ok [], sensors := .error "boom" }

/-- A CPU environment in which psutil answers but no sensor name
matches the `coretemp`/`cpu` filter: the temperature read yields
nothing and no marker is written. -/
def cpuEnvSemSensorCPU : CpuEnv :=
  { psutil := true, basic := .ok { uso_atual := 10, resto := [] },
    cpuinfoLib := false, cpuinfoDados := .ok [],
    sensors := .ok [("acpitz", [50])] }

/-- A GPU environment whose `getGPUs()` call raises. -/
def gpuEnvFalha : GpuEnv := { gputil := true, getGPUs := .error "boom" }

/-- A memory environment whose `virtual_memory()` call raises. -/
def memEnvFalha : MemEnv :=
  { psutil := true, virtual_memory := .error "boom",
    swap_memory := .ok { total := 0, used := 0, percent := 0 }, wmi_modules := none }

/-- A storage environment whose `disk_partitions()` call raises. -/
def stoEnvFalha : StoEnv :=
  { psutil := true, partitions := .error "boom", disk_io := none, wmi_smart := none }

/-- A motherboard environment whose WMI enumeration raises. -/
def mbEnvFalha : MbEnv := { wmi_windows := true, dados := .error "boom" }

/-- A system environment whose platform block raises. -/
def sysEnvFalha : SysEnv := { base := .error "boom", psutil := false, psDados := .ok [] }

/-- A network environment whose enumeration raises. -/
def netEnvFalha : NetEnv := { psutil := true, dados := .error "boom" }

/-! ### Helper lemmas -/

/-- Each tick appends exactly one timestamp. -/
lemma tick_timestamps (d : MonData) (e : TickEnv) :
    (tick d e).timestamps = d.timestamps ++ [e.now] := by
  unfold tick gpuTickPart
  repeat' split
  all_goals rfl

/-- Each tick appends a CPU-temperature sample exactly when
`tempRecorded` holds — an unavailable reading appends nothing. -/
lemma tick_cpu_temp_len (d : MonData) (e : TickEnv) :
    (tick d e).cpu_temp.length
      = d.cpu_temp.length + (if tempRecorded e then 1 else 0) := by
  unfold tick gpuTickPart tempRecorded
  repeat' split
  all_goals simp_all

/-- Timestamp trace of a completed run of ticks. -/
lemma runTicks_timestamps (envs : List TickEnv) (d : MonData) :
    (runTicks envs d).timestamps = d.timestamps ++ envs.map TickEnv.now := by
  induction envs generalizing d with
  | nil => simp [runTicks]
  | cons e es ih =>
    have h := ih (tick d e)
    simp only [runTicks, List.foldl_cons] at h ⊢
    rw [h, tick_timestamps, List.map_cons, List.append_assoc, List.singleton_append]

/-- CPU-temperature sample count of a completed run of ticks. -/
lemma runTicks_cpu_temp_len (envs : List TickEnv) (d : MonData) :
    (runTicks envs d).cpu_temp.length
      = d.cpu_temp.length + envs.countP tempRecorded := by
  induction envs generalizing d with
  | nil => simp [runTicks]
  | cons e es ih =>
    have h := ih (tick d e)
    simp only [runTicks, List.foldl_cons] at h ⊢
    rw [h, tick_cpu_temp_len, List.countP_cons]
    cases htr : tempRecorded e
    · simp [htr]
    · simp [htr]
      omega

/-- The alerts of `cpuTempAlerts` are CPU alerts, never disk ones. -/
lemma cpuTempAlerts_ok (t : ℚ) :
    ((cpuTempAlerts t).all fun a => !alertaTempDisco a) = true := by
  unfold cpuTempAlerts
  repeat' split
  all_goals rfl

/-- The alerts of `gpuTempAlerts` are GPU alerts, never disk ones. -/
lemma gpuTempAlerts_ok (t : ℚ) :
    ((gpuTempAlerts t).all fun a => !alertaTempDisco a) = true := by
  unfold gpuTempAlerts
  repeat' split
  all_goals rfl

/-- The alerts of `vramAlerts` are GPU alerts, never disk ones. -/
lemma vramAlerts_ok (p : ℚ) :
    ((vramAlerts p).all fun a => !alertaTempDisco a) = true := by
  unfold vramAlerts
  repeat' split
  all_goals rfl

/-- The alerts of `memAlerts` are RAM alerts, never disk ones. -/
lemma memAlerts_ok (p : ℚ) :
    ((memAlerts p).all fun a => !alertaTempDisco a) = true := by
  unfold memAlerts
  repeat' split
  all_goals rfl

/-- The alerts of `swapAlerts` are SWAP alerts, never disk ones. -/
lemma swapAlerts_ok (p : ℚ) :
    ((swapAlerts p).all fun a => !alertaTempDisco a) = true := by
  unfold swapAlerts
  repeat' split
  all_goals rfl

/-- The alerts of `diskSpaceAlerts` carry space messages, never
temperature ones. -/
lemma diskSpaceAlerts_ok (dev : String) (p : ℚ) :
    ((diskSpaceAlerts dev p).all fun a => !alertaTempDisco a) = true := by
  unfold diskSpaceAlerts
  repeat' split
  all_goals rfl

/-- `get_cpu_info` never appends a disk-temperature alert. -/
lemma get_cpu_info_alerts_ok (e : CpuEnv) :
    (((get_cpu_info e).2).all fun a => !alertaTempDisco a) = true := by
  unfold get_cpu_info
  repeat' split
  all_goals first
    | rfl
    | exact cpuTempAlerts_ok _

/-- `get_gpu_info` never appends a disk-temperature alert. -/
lemma get_gpu_info_alerts_ok (e : GpuEnv) :
    (((get_gpu_info e).2).all fun a => !alertaTempDisco a) = true := by
  unfold get_gpu_info
  repeat' split
  all_goals first
    | rfl
    | simp [List.all_append, gpuTempAlerts_ok, vramAlerts_ok]

/-- `get_memory_info` never appends a disk-temperature alert. -/
lemma get_memory_info_alerts_ok (e : MemEnv) :
    (((get_memory_info e).2).all fun a => !alertaTempDisco a) = true := by
  unfold get_memory_info
  repeat' split
  all_goals first
    | rfl
    | exact memAlerts_ok _
    | simp [List.all_append, memAlerts_ok, swapAlerts_ok]

/-- The partition loop only appends space alerts. -/
lemma stoLoop_alerts_ok (parts : List PartitionRead) :
    ∀ (devs : List DeviceInfo) (al : List Alert),
      (al.all fun a => !alertaTempDisco a) = true →
      (((stoLoop parts devs al).2.1).all fun a => !alertaTempDisco a) = true := by
  induction parts with
  | nil => intro devs al h; exact h
  | cons p rest ih =>
    intro devs al h
    cases p with
    | permissionError dev => exact ih devs al h
    | otherError m => exact h
    | ok dev mp fs u =>
      simp only [stoLoop]
      split
      · exact h
      · exact ih _ _ (by simp [List.all_append, h, diskSpaceAlerts_ok])

/-- `get_storage_info` never appends a disk-temperature alert. -/
lemma get_storage_info_alerts_ok (e : StoEnv) :
    (((get_storage_info e).2).all fun a => !alertaTempDisco a) = true := by
  unfold get_storage_info
  split
  · rfl
  · split
    · rfl
    next parts heqp =>
      split
      next devs al err heq =>
        have h := stoLoop_alerts_ok parts ([] : List DeviceInfo) ([] : List Alert) rfl
        rw [heq] at h
        exact h
      next devs al heq =>
        have h := stoLoop_alerts_ok parts ([] : List DeviceInfo) ([] : List Alert) rfl
        rw [heq] at h
        exact h

/-! ### Claims -/

/-- Claim C1, corrected: after one full diagnostic run on the quiet
machine whose CPU-temperature sensor reads 86°C, the alert list holds
exactly TWO critical CPU-temperature alerts, not one —
`run_complete_diagnosis` queries the CPU once for the report and
`analyze_health_and_recommendations` queries it again, and each
`get_cpu_info` call appends the alert.  Likewise a reading of 76°C
yields exactly two warning CPU alerts, and a reading of 60°C yields no
CPU alert of either severity. -/
theorem claim1_theorem :
    contaAlertas "CRÍTICO" "CPU" (run_complete_diagnosis (envComTempCPU 86) {}).alerts = 2
  ∧ contaAlertas "AVISO" "CPU" (run_complete_diagnosis (envComTempCPU 86) {}).alerts = 0
  ∧ contaAlertas "AVISO" "CPU" (run_complete_diagnosis (envComTempCPU 76) {}).alerts = 2
  ∧ contaAlertas "CRÍTICO" "CPU" (run_complete_diagnosis (envComTempCPU 76) {}).alerts = 0
  ∧ contaAlertas "CRÍTICO" "CPU" (run_complete_diagnosis (envComTempCPU 60) {}).alerts = 0
  ∧ contaAlertas "AVISO" "CPU" (run_complete_diagnosis (envComTempCPU 60) {}).alerts = 0 := by
  decide

/-- Claim C1 counterexample: with the sensor at 86°C the alert list
after a full diagnostic does NOT contain exactly one critical CPU
alert (it contains two). -/
theorem claim1_counterexample :
    ¬ contaAlertas "CRÍTICO" "CPU"
        (run_complete_diagnosis (envComTempCPU 86) {}).alerts = 1 := by
  decide

/-- Claim C2, corrected: after N completed ticks the timestamp list
holds exactly N entries, in tick order and strictly increasing whenever
the tick clock is; but a CPU-temperature sample is appended only for
ticks where the reading was obtained and truthy (`tempRecorded`) — an
unavailable field is skipped outright, never recorded as an
empty/missing entry, so the per-metric lists can be shorter than the
timestamp list and their indices need not correspond to ticks. -/
theorem claim2_theorem (envs : List TickEnv) (d : MonData) :
    (runTicks envs d).timestamps = d.timestamps ++ envs.map TickEnv.now
  ∧ (runTicks envs d).cpu_temp.length = d.cpu_temp.length + envs.countP tempRecorded
  ∧ (d.timestamps = [] → strictlyIncreasing (envs.map TickEnv.now) = true →
      strictlyIncreasing (runTicks envs d).timestamps = true) := by
  refine ⟨runTicks_timestamps envs d, runTicks_cpu_temp_len envs d, ?_⟩
  intro h0 hc
  rw [runTicks_timestamps envs d, h0, List.nil_append]
  exact hc

/-- Claim C2 witness: the theorem applied to the concrete two-tick
session starting from the empty buffer. -/
theorem claim2_witness :
    (runTicks [tickSemTemp, tickComTemp] ({} : MonData)).timestamps
        = ({} : MonData).timestamps ++ [tickSemTemp, tickComTemp].map TickEnv.now
  ∧ strictlyIncreasing (runTicks [tickSemTemp, tickComTemp] ({} : MonData)).timestamps = true :=
  ⟨(claim2_theorem [tickSemTemp, tickComTemp] {}).1,
   (claim2_theorem [tickSemTemp, tickComTemp] {}).2.2 rfl (by decide)⟩

/-- Claim C2 counterexample: two completed ticks — the first with no
CPU-temperature reading, the second reading 50°C — leave two
timestamps but a single `cpu_temp` entry: the unavailable tick was
skipped rather than recorded as missing, and index 0 of `cpu_temp`
holds the sample of tick 1, not tick 0. -/
theorem claim2_counterexample :
    (runTicks [tickSemTemp, tickComTemp] ({} : MonData)).timestamps.length = 2
  ∧ (runTicks [tickSemTemp, tickComTemp] ({} : MonData)).cpu_temp = [50]
  ∧ (runTicks [tickSemTemp, tickComTemp] ({} : MonData)).cpu_temp.length ≠ 2 := by
  decide

/-- Claim C3, corrected: every telemetry query function is total over
every provider outcome — a caught provider exception is surfaced as the
`erro` entry of the returned snapshot, and a failing
`sensors_temperatures()` call inside `get_cpu_info` as the `N/A`
temperature marker.  The claim overstates the marking: a missing
sensor raises nothing, and then the temperature field is silently
absent (see the counterexample). -/
theorem claim3_theorem
    (e1 e1' : CpuEnv) (e2 : GpuEnv) (e3 : MemEnv) (e4 : StoEnv)
    (e5 : MbEnv) (e6 : SysEnv) (e7 : NetEnv) :
    (∀ msg, e1.psutil = true → e1.basic = .error msg →
      (get_cpu_info e1).1.erro = "Erro ao obter informações do CPU: " ++ msg)
  ∧ (∀ msg b, e1'.psutil = true → e1'.basic = .ok b → e1'.cpuinfoLib = false →
      e1'.sensors = .error msg → (get_cpu_info e1').1.temperatura = some .na)
  ∧ (∀ msg, e2.gputil = true → e2.getGPUs = .error msg →
      (get_gpu_info e2).1.erro = some ("Erro ao obter informações da GPU: " ++ msg))
  ∧ (∀ msg, e3.psutil = true → e3.virtual_memory = .error msg →
      (get_memory_info e3).1.erro = some ("Erro ao obter informações da memória: " ++ msg))
  ∧ (∀ msg, e4.psutil = true → e4.partitions = .error msg →
      (get_storage_info e4).1.erro
        = some ("Erro ao obter informações de armazenamento: " ++ msg))
  ∧ (∀ msg, e5.wmi_windows = true → e5.dados = .error msg →
      (get_motherboard_info e5).erro
        = some ("Erro ao obter informações da placa-mãe: " ++ msg))
  ∧ (∀ msg, e6.base = .error msg →
      (get_system_info e6).erro = some ("Erro ao obter informações do sistema: " ++ msg))
  ∧ (∀ msg, e7.psutil = true → e7.dados = .error msg →
      (get_network_info e7).erro = some ("Erro ao obter informações de rede: " ++ msg)) := by
  refine ⟨?_, ?_, ?_, ?_, ?_, ?_, ?_, ?_⟩
  · intro msg hp hb
    simp [get_cpu_info, hp, hb, Except.map]
  · intro msg b hp hb hcl hs
    simp [get_cpu_info, hp, hb, hcl, hs, Except.map]
  · intro msg hg hG
    simp [get_gpu_info, hg, hG]
  · intro msg hp hv
    simp [get_memory_info, hp, hv]
  · intro msg hp hpart
    simp [get_storage_info, hp, hpart]
  · intro msg hw hd
    simp [get_motherboard_info, hw, hd]
  · intro msg hb
    simp [get_system_info, hb]
  · intro msg hp hd
    simp [get_network_info, hp, hd]

/-- Claim C3 witness: the theorem applied to concrete environments in
which each provider call raises `"boom"`. -/
theorem claim3_witness :
    (get_cpu_info cpuEnvFalha).1.erro = "Erro ao obter informações do CPU: " ++ "boom"
  ∧ (get_cpu_info cpuEnvSensorFalha).1.temperatura = some .na
  ∧ (get_gpu_info gpuEnvFalha).1.erro
      = some ("Erro ao obter informações da GPU: " ++ "boom")
  ∧ (get_memory_info memEnvFalha).1.erro
      = some ("Erro ao obter informações da memória: " ++ "boom")
  ∧ (get_storage_info stoEnvFalha).1.erro
      = some ("Erro ao obter informações de armazenamento: " ++ "boom")
  ∧ (get_motherboard_info mbEnvFalha).erro
      = some ("Erro ao obter informações da placa-mãe: " ++ "boom")
  ∧ (get_system_info sysEnvFalha).erro
      = some ("Erro ao obter informações do sistema: " ++ "boom")
  ∧ (get_network_info netEnvFalha).erro
      = some ("Erro ao obter informações de rede: " ++ "boom") := by
  have h := claim3_theorem cpuEnvFalha cpuEnvSensorFalha gpuEnvFalha memEnvFalha
    stoEnvFalha mbEnvFalha sysEnvFalha netEnvFalha
  exact ⟨h.1 "boom" rfl rfl,
    h.2.1 "boom" { uso_atual := 10, resto := [] } rfl rfl rfl rfl,
    h.2.2.1 "boom" rfl rfl,
    h.2.2.2.1 "boom" rfl rfl,
    h.2.2.2.2.1 "boom" rfl rfl,
    h.2.2.2.2.2.1 "boom" rfl rfl,
    h.2.2.2.2.2.2.1 "boom" rfl,
    h.2.2.2.2.2.2.2 "boom" rfl rfl⟩

/-- Claim C3 counterexample: with psutil answering but no sensor whose
name matches the CPU filter, `get_cpu_info` returns a snapshot whose
temperature field is silently absent — the failed temperature read is
NOT replaced by an explicit error/`N/A` marker — even though the rest
of the read succeeded. -/
theorem claim3_counterexample :
    (get_cpu_info cpuEnvSemSensorCPU).1.temperatura = none
  ∧ (get_cpu_info cpuEnvSemSensorCPU).1.uso_atual = some 10 := by
  decide

/-- Claim C4, confirmed: rebuilding the alert and recommendation lists
twice from the same fixed provider outcomes yields identical lists —
each run clears both lists first and the rules are deterministic
functions of the snapshot values, so the second run's result does not
depend on the state the first run left behind. -/
theorem claim4_theorem (env : DiagEnv) (s : EngineState) :
    (run_complete_diagnosis env (run_complete_diagnosis env s)).alerts
      = (run_complete_diagnosis env s).alerts
  ∧ (run_complete_diagnosis env (run_complete_diagnosis env s)).recommendations
      = (run_complete_diagnosis env s).recommendations :=
  ⟨rfl, rfl⟩

/-- Claim C5, corrected: the telemetry query functions do leave the
recommendation list and the monitoring buffers unchanged, but they are
NOT free of engine-state side effects: `get_cpu_info`, `get_gpu_info`,
`get_memory_info` and `get_storage_info` append threshold alerts to
`self.alerts` as they read (see the counterexample). -/
theorem claim5_theorem
    (e1 : CpuEnv) (e2 : GpuEnv) (e3 : MemEnv) (e4 : StoEnv) (s : EngineState) :
    (get_cpu_infoS e1 s).2.recommendations = s.recommendations
  ∧ (get_cpu_infoS e1 s).2.monitoring_data = s.monitoring_data
  ∧ (get_gpu_infoS e2 s).2.recommendations = s.recommendations
  ∧ (get_gpu_infoS e2 s).2.monitoring_data = s.monitoring_data
  ∧ (get_memory_infoS e3 s).2.recommendations = s.recommendations
  ∧ (get_memory_infoS e3 s).2.monitoring_data = s.monitoring_data
  ∧ (get_storage_infoS e4 s).2.recommendations = s.recommendations
  ∧ (get_storage_infoS e4 s).2.monitoring_data = s.monitoring_data :=
  ⟨rfl, rfl, rfl, rfl, rfl, rfl, rfl, rfl⟩

/-- Claim C5 counterexample: a single `get_cpu_info` call on a machine
whose sensor reads 86°C changes the engine's alert list. -/
theorem claim5_counterexample :
    (get_cpu_infoS (cpuEnvSensor 86) {}).2.alerts ≠ ({} : EngineState).alerts := by
  decide

/-- Claim C6 (code bug): `temp_limits` defines `disk_warning = 50` and
`disk_critical = 60`, but no code path ever reads a disk temperature or
compares one against them — every `DISCO` alert a full diagnostic can
produce is a space alert, so a disk temperature above 60°C yields no
critical disk alert. -/
theorem claim6_theorem (env : DiagEnv) (s : EngineState) :
    temp_limits.disk_warning = 50 ∧ temp_limits.disk_critical = 60
  ∧ (((run_complete_diagnosis env s).alerts).all fun a => !alertaTempDisco a) = true := by
  refine ⟨rfl, rfl, ?_⟩
  have hA : (run_complete_diagnosis env s).alerts
      = (get_cpu_info env.cpu).2 ++ (get_gpu_info env.gpu).2
        ++ (get_memory_info env.mem).2 ++ (get_storage_info env.storage).2
        ++ ((get_cpu_info env.cpu).2 ++ (get_gpu_info env.gpu).2
            ++ (get_memory_info env.mem).2 ++ (get_storage_info env.storage).2) := rfl
  rw [hA]
  simp [List.all_append, get_cpu_info_alerts_ok, get_gpu_info_alerts_ok,
    get_memory_info_alerts_ok, get_storage_info_alerts_ok]

/-- Claim C7, corrected: with memory usage at 91% a full diagnostic
produces the critical RAM alerts (twice, once per query round) and
exactly one "add more RAM" recommendation; but at 81% only the warning
RAM alerts appear and NO memory recommendation at all — the
recommendation rule fires above 85%, not above the 80% warning
threshold. -/
theorem claim7_theorem :
    contaAlertas "CRÍTICO" "RAM" (run_complete_diagnosis (envComMemoria 91) {}).alerts = 2
  ∧ ({ categoria := "Hardware", prioridade := "ALTA", componente := "RAM",
       problema := .usoAltoRAM 91,
       recomendacao := "Considere adicionar mais RAM, feche aplicações não utilizadas, verifique vazamentos de memória" } : Recomendacao)
      ∈ (run_complete_diagnosis (envComMemoria 91) {}).recommendations
  ∧ ((run_complete_diagnosis (envComMemoria 91) {}).recommendations.countP ehRecRAM) = 1
  ∧ contaAlertas "AVISO" "RAM" (run_complete_diagnosis (envComMemoria 81) {}).alerts = 2
  ∧ contaAlertas "CRÍTICO" "RAM" (run_complete_diagnosis (envComMemoria 81) {}).alerts = 0
  ∧ ((run_complete_diagnosis (envComMemoria 81) {}).recommendations.countP ehRecRAM) = 0 := by
  decide

/-- Claim C7 counterexample: at 81% memory usage the recommendation
list does not contain exactly one memory recommendation — it contains
none, because the memory recommendation requires usage above 85%. -/
theorem claim7_counterexample :
    ¬ ((run_complete_diagnosis (envComMemoria 81) {}).recommendations.countP ehRecRAM) = 1 := by
  decide

/-- Claim C8, corrected: when a session ends, `finish_monitoring`
clears the flag, leaves the buffer intact, and publishes the mean and
maximum of CPU% and memory% over the full buffer — but it never
publishes a GPU statistic, even when GPU samples are present; GPU
mean/max appear only in the separately requested complete report
(`report_monitoring_stats`). -/
theorem claim8_theorem (d : MonData) :
    (finish_monitoring d).dados = d
  ∧ (finish_monitoring d).monitoring = false
  ∧ (∀ m M, StatLine.gpuStat m M ∉ (finish_monitoring d).linhas)
  ∧ (d.cpu_usage ≠ [] →
      StatLine.cpuStat (media d.cpu_usage) (maxOf d.cpu_usage)
        ∈ (finish_monitoring d).linhas)
  ∧ (d.memory_usage ≠ [] →
      StatLine.ramStat (media d.memory_usage) (maxOf d.memory_usage)
        ∈ (finish_monitoring d).linhas)
  ∧ (d.timestamps ≠ [] → d.gpu_usage ≠ [] →
      StatLine.gpuStat (media d.gpu_usage) (maxOf d.gpu_usage)
        ∈ report_monitoring_stats d) := by
  refine ⟨rfl, rfl, ?_, ?_, ?_, ?_⟩
  · intro m M h
    simp only [finish_monitoring] at h
    rcases List.mem_append.1 h with h | h
    · rcases List.mem_append.1 h with h | h
      · simp at h
      · split at h <;> simp_all
    · split at h <;> simp_all
  · intro hne
    have hf : d.cpu_usage.isEmpty = false := by
      simp [List.isEmpty_iff, hne]
    simp [finish_monitoring, hf]
  · intro hne
    have hf : d.memory_usage.isEmpty = false := by
      simp [List.isEmpty_iff, hne]
    simp [finish_monitoring, hf]
  · intro ht hg
    have hft : d.timestamps.isEmpty = false := by
      simp [List.isEmpty_iff, ht]
    have hfg : d.gpu_usage.isEmpty = false := by
      simp [List.isEmpty_iff, hg]
    simp [report_monitoring_stats, hft, hfg]

/-- Claim C8 witness: the theorem applied to the concrete one-tick
buffer with GPU samples. -/
theorem claim8_witness :
    (finish_monitoring dadosComGPU).dados = dadosComGPU
  ∧ StatLine.gpuStat 30 30 ∉ (finish_monitoring dadosComGPU).linhas
  ∧ StatLine.cpuStat (media dadosComGPU.cpu_usage) (maxOf dadosComGPU.cpu_usage)
      ∈ (finish_monitoring dadosComGPU).linhas
  ∧ StatLine.ramStat (media dadosComGPU.memory_usage) (maxOf dadosComGPU.memory_usage)
      ∈ (finish_monitoring dadosComGPU).linhas
  ∧ StatLine.gpuStat (media dadosComGPU.gpu_usage) (maxOf dadosComGPU.gpu_usage)
      ∈ report_monitoring_stats dadosComGPU :=
  ⟨(claim8_theorem dadosComGPU).1,
   (claim8_theorem dadosComGPU).2.2.1 30 30,
   (claim8_theorem dadosComGPU).2.2.2.1 (by decide),
   (claim8_theorem dadosComGPU).2.2.2.2.1 (by decide),
   (claim8_theorem dadosComGPU).2.2.2.2.2 (by decide) (by decide)⟩

/-- Claim C8 counterexample: on a buffer that does contain GPU samples,
the summary published at the Running → Idle transition contains no GPU
statistic line at all, contradicting "and of GPU% when GPU samples are
present". -/
theorem claim8_counterexample :
    dadosComGPU.gpu_usage ≠ []
  ∧ ((finish_monitoring dadosComGPU).linhas.all fun l => !ehGpuStat l) = true := by
  refine ⟨by decide, ?_⟩
  rfl

/-- Claim C9, confirmed: once a stop request has set the monitoring
flag to `False`, the very next evaluation of the loop condition fails —
the flag is re-checked at the top of every iteration — so no further
tick begins, the buffer is exactly as the in-flight tick left it, and
the session is out of the Running state no matter what later schedule
entries would have offered. -/
theorem claim9_theorem (e : TickEnv) (rest : List (Bool × TickEnv)) (s : LoopState) :
    loopRun ((true, e) :: rest) s = stop_monitoring s
  ∧ (loopRun ((true, e) :: rest) s).dados = s.dados
  ∧ (loopRun ((true, e) :: rest) s).monitoring = false := by
  have h : loopRun ((true, e) :: rest) s = stop_monitoring s := by
    simp [loopRun, stop_monitoring]
  exact ⟨h, by rw [h]; rfl, by rw [h]; rfl⟩

/-- Claim C10, confirmed: every threshold comparison in alert
generation is strict — a reading exactly at a limit never triggers
that tier: CPU temperature 85°C gives only the warning alert, 75°C
none; GPU temperature 90°C only the warning, 80°C none; memory 90%
only the warning, 80% none; swap 50% none; disk space 95% only the
warning, 85% none; VRAM 90% none. -/
theorem claim10_theorem :
    cpuTempAlerts 85
      = [{ tipo := "AVISO", componente := "CPU", mensagem := .tempAlta 85, prioridade := "MÉDIA" }]
  ∧ cpuTempAlerts 75 = []
  ∧ gpuTempAlerts 90
      = [{ tipo := "AVISO", componente := "GPU", mensagem := .tempAlta 90, prioridade := "MÉDIA" }]
  ∧ gpuTempAlerts 80 = []
  ∧ memAlerts 90
      = [{ tipo := "AVISO", componente := "RAM", mensagem := .memAlta 90, prioridade := "MÉDIA" }]
  ∧ memAlerts 80 = []
  ∧ swapAlerts 50 = []
  ∧ diskSpaceAlerts "C:" 95
      = [{ tipo := "AVISO", componente := "DISCO", mensagem := .espacoBaixo "C:" 95, prioridade := "MÉDIA" }]
  ∧ diskSpaceAlerts "C:" 85 = []
  ∧ vramAlerts 90 = [] := by
  decide

end Diagnostico
